import Mathlib

/-!
# Verification of the voice-to-org-roam capture and formatting pipeline

Shallow embedding of `src/lib/record_voice.py`, `src/lib/text_processor.py`,
`src/lib/process_input.py` and the model classes under `src/lib/models/`,
together with theorems settling the specification claims about them.
-/

namespace VoiceToOrg

/-!
## Python string primitives

Structurally recursive models of the Python `str` methods the sources use,
over the character lists underlying `String`, so that every definition
evaluates inside the kernel. -/

/-- Python `str.lower()`: ASCII lowercasing, character by character. -/
def pyLower (s : String) : String :=
  String.mk (s.toList.map Char.toLower)

/-- The characters Python `str.strip()` removes: space, tab, newline,
carriage return, vertical tab, form feed. -/
def pyIsSpace (c : Char) : Bool :=
  c == ' ' || c == '\t' || c == '\n' || c == '\r' || c == '\x0b' || c == '\x0c'

/-- Python `str.strip()`: remove leading and trailing whitespace. -/
def pyStrip (s : String) : String :=
  String.mk (((s.toList.dropWhile pyIsSpace).reverse.dropWhile pyIsSpace).reverse)

/-- Python `s.startswith(pre)`. -/
def pyStartsWith (s pre : String) : Bool :=
  pre.toList.isPrefixOf s.toList

/-- Worker for `pySplit`: scan left to right for the (non-empty) separator,
cutting a piece at every occurrence.  `fuel` only forces structural
termination; any `fuel` above the input length is enough. -/
def pySplitGo (sep : List Char) : Nat → List Char → List Char → List (List Char)
  | 0, _, acc => [acc.reverse]
  | _ + 1, [], acc => [acc.reverse]
  | fuel + 1, c :: rest, acc =>
      if sep.isPrefixOf (c :: rest) then
        acc.reverse :: pySplitGo sep fuel ((c :: rest).drop sep.length) []
      else
        pySplitGo sep fuel rest (c :: acc)

/-- Python `s.split(sep)` for a non-empty separator `sep`: the pieces
between non-overlapping occurrences of `sep`, empty pieces kept, and
`[s]` when `sep` does not occur. -/
def pySplit (s sep : String) : List String :=
  (pySplitGo sep.toList (s.toList.length + 1) s.toList []).map String.mk

/-- Python `needle in haystack`: substring containment, modelled on the
character lists. -/
def containsSub (needle haystack : String) : Bool :=
  haystack.toList.tails.any (fun suffix => needle.toList.isPrefixOf suffix)

/-- Default stop phrases from `VoiceRecorder.__init__`
(`src/lib/record_voice.py` line 24). -/
def stopPhrases : List String :=
  ["stop recording", "end recording", "finish recording"]

/-- `any(phrase in text.lower() for phrase in self.stop_phrases)`
(`src/lib/record_voice.py` line 54). -/
def stopHit (text : String) : Bool :=
  stopPhrases.any (fun phrase => containsSub phrase (pyLower text))

/-- `LocalModel.process_text` (`src/lib/models/local_model.py` lines 8-17):
split on the two-character separator `". "`, keep non-empty pieces, strip
each and prepend `"* "`, join with newlines. -/
def LocalModel.process_text (text : String) : String :=
  let lines := pySplit text ". "
  let formatted := (lines.filter (fun line => line != "")).map
    (fun line => "* " ++ pyStrip line)
  String.intercalate "\n" formatted

/-- Python positional-call semantics for `LocalModel.process_text`, whose
declared parameters are `(self, text)` (`src/lib/models/local_model.py`
line 8).  A call supplying any other number of positional arguments raises
`TypeError`; `src/lib/text_processor.py` line 86 passes two
(`raw_text, system_prompt`). -/
def LocalModel.callProcessText (args : List String) : Except String String :=
  match args with
  | [text] => .ok (LocalModel.process_text text)
  | _ => .error "TypeError: process_text() takes 2 positional arguments but 3 were given"

/-- `ProcessedText` (`src/lib/text_processor.py` lines 35-42).  Python dict
properties are modelled as an association list. -/
structure ProcessedText where
  content : String
  title : Option String := none
  tags : List String := []
  properties : List (String × String) := []
  error : Option String := none
deriving Repr, DecidableEq

/-- The meeting-notes system prompt (`src/lib/text_processor.py` lines
75-84): a triple-quoted Python literal, leading newline and 12-space
indentation included. -/
def meetingSystemPrompt : String :=
  "\n            Convert the following meeting notes into org-mode format.\n            Include:\n            - Appropriate headers and structure\n            - Timestamps for key points\n            - Any action items or TODOs\n            - Proper org syntax\n            - Extract any proper nouns as [[id:placeholder][Name]] links\n            - Identify and tag key topics\n            "

/-- The general-notes system prompt (`src/lib/text_processor.py` lines
126-135), with `"\nContext: " + context` appended when `context` is truthy
(Python treats the empty string as falsy). -/
def generalSystemPrompt (context : Option String) : String :=
  let base := "\n            Convert the following notes into org-mode format.\n            - Use appropriate headers and structure\n            - Identify and format any links to other notes\n            - Extract key concepts and create org-roam style links\n            - Maintain any existing org-roam links\n            "
  match context with
  | none => base
  | some c => if c = "" then base else base ++ "\nContext: " ++ c

/-- `TextProcessor._extract_tags` (`src/lib/text_processor.py` lines
153-166): for each line starting with `:FILETAGS:`, split the line on
colons, drop the first two pieces and the last piece, strip each entry and
collect. -/
def extract_tags (text : String) : List String :=
  (pySplit text "\n").foldl
    (fun tags line =>
      if pyStartsWith line ":FILETAGS:" then
        tags ++ (((pySplit line ":").drop 2).dropLast.map pyStrip)
      else tags)
    []

/-- `TextProcessor.process_meeting_notes` (`src/lib/text_processor.py`
lines 64-112).  The backend call `await self.model.process_text(raw_text,
system_prompt)` is abstracted as `model : String → String → Except String
String`, `.error e` standing for the call raising an exception with message
`e`.  The wall-clock timestamp of `format_timestamp()` is passed in as
`timestamp`.  The Python `list(set(tags))` deduplication (line 98, order
unspecified) is modelled by `List.dedup`.  The `except` branch never
re-raises, so the embedding is total. -/
def process_meeting_notes (model : String → String → Except String String)
    (default_tags : List String) (timestamp : String)
    (raw_text : String) : ProcessedText :=
  match model raw_text meetingSystemPrompt with
  | .ok formatted_text =>
      let content := "* Meeting Notes " ++ timestamp ++ "\n" ++ formatted_text
      let tags := extract_tags formatted_text ++ ["meeting"] ++ default_tags
      { content := content
        tags := tags.dedup
        properties := [("CATEGORY", "meetings"), ("CREATED", timestamp)] }
  | .error e =>
      let error_msg := "Error processing meeting notes: " ++ e
      { content := raw_text
        tags := ["meeting", "error"]
        error := some error_msg }

/-- Title stripping of `src/lib/text_processor.py` line 141: drop leading
characters from the set star/hash/space (a Python lstrip on that character
set), then strip surrounding whitespace. -/
def stripTitleMarkers (line : String) : String :=
  pyStrip (String.mk (line.toList.dropWhile (fun c => c == '*' || c == '#' || c == ' ')))

/-- `TextProcessor.process_general_notes` (`src/lib/text_processor.py`
lines 114-151).  On a backend exception the `except` branch re-raises
(`raise`, line 151), modelled by propagating `.error e`.  The title is
computed from element 0 of the newline-split of the formatted text
(line 140) — the first line,
whether or not it is empty. -/
def process_general_notes (model : String → String → Except String String)
    (raw_text : String) (context : Option String) :
    Except String ProcessedText :=
  match model raw_text (generalSystemPrompt context) with
  | .ok formatted_text =>
      let first_line := (pySplit formatted_text "\n").headD ""
      let title := stripTitleMarkers first_line
      .ok { content := formatted_text
            title := some title
            tags := extract_tags formatted_text }
  | .error e => .error e

/-!
## The capture session (`src/lib/record_voice.py`)

`VoiceRecorder.record` runs a producer thread (`record_chunk`) pushing
captured audio chunks onto `self.audio_queue` and a consumer thread
(`process_audio`) popping them, recognizing them, and appending the
recognized text to `self.text_segments`.  We model the interleaved
execution as a labelled-free transition system.  An audio chunk is
identified with the text it successfully recognizes to (the claims under
study concern successfully recognized chunks); `pending` lists the chunks
the microphone will deliver, in capture order. -/

/-- Shared mutable state of the two threads of `VoiceRecorder`:
`audio_queue` (head = oldest, FIFO), `text_segments`, and the
`is_recording` flag. -/
structure RecorderState where
  pending : List String
  queue : List String
  segments : List String
  recording : Bool
deriving Repr, DecidableEq

/-- One interleaved step of `VoiceRecorder.record`:
* `capture`: `record_chunk` (lines 30-43) loops while `is_recording`,
  listens for a chunk and does `self.audio_queue.put(audio)` — the queue is
  `queue.Queue()` with no `maxsize` (line 26), so the put appends
  unconditionally, whatever the current queue length;
* `recognize_ok`: `process_audio` (lines 45-65) pops the oldest chunk
  (loop guard `self.is_recording or not self.audio_queue.empty()` holds
  since the queue is non-empty), no stop phrase is found, and the text is
  appended to `text_segments` (line 59);
* `recognize_stop`: the popped chunk contains a stop phrase (line 54): the
  flag is cleared and the loop breaks *without* appending (lines 56-57);
* `interrupt`: the main thread clears `is_recording` on
  `KeyboardInterrupt` (line 88). -/
inductive Step : RecorderState → RecorderState → Prop
  | capture (t : String) (rest queue segments : List String) :
      Step ⟨t :: rest, queue, segments, true⟩
        ⟨rest, queue ++ [t], segments, true⟩
  | recognize_ok (t : String) (pending rest segments : List String)
      (rec : Bool) (h : stopHit t = false) :
      Step ⟨pending, t :: rest, segments, rec⟩
        ⟨pending, rest, segments ++ [t], rec⟩
  | recognize_stop (t : String) (pending rest segments : List String)
      (rec : Bool) (h : stopHit t = true) :
      Step ⟨pending, t :: rest, segments, rec⟩
        ⟨pending, rest, segments, false⟩
  | interrupt (pending queue segments : List String) (rec : Bool) :
      Step ⟨pending, queue, segments, rec⟩
        ⟨pending, queue, segments, false⟩

/-- Reachability in any number of interleaved steps. -/
def Reach : RecorderState → RecorderState → Prop :=
  Relation.ReflTransGen Step

/-- Initial state of a session that will capture `inputs`: queue and
transcript empty, `is_recording = True` (line 74). -/
def recInit (inputs : List String) : RecorderState :=
  ⟨inputs, [], [], true⟩

/-- The value `record` returns: `" ".join(self.text_segments)` (line 93). -/
def joinTranscript (s : RecorderState) : String :=
  String.intercalate " " s.segments

/-- The consumer body of `process_audio` applied to a sequence of
successfully recognized texts in dequeue (FIFO) order: the stop-phrase
check (line 54) runs *before* the append (line 59), and on a hit the loop
breaks immediately. -/
def consumeTexts : List String → List String → List String
  | [], segments => segments
  | t :: rest, segments =>
      if stopHit t then segments
      else consumeTexts rest (segments ++ [t])

/-!
## The command-line glue (`src/lib/process_input.py`)
-/

/-- `ModelType` (`src/lib/models/types.py`). -/
inductive ModelType
  | gpt35
  | gpt4
  | local
deriving Repr, DecidableEq

/-- Runtime model objects: `OpenAIModel` carries `client` and `model_name`
(`src/lib/models/openai_model.py` lines 11-13), `LocalModel` has no
instance attributes (`src/lib/models/local_model.py`).  Neither class
defines a `model_type` or `model_params` attribute. -/
inductive ModelObj
  | openai (api_key : String) (model_name : String)
  | localModel
deriving Repr, DecidableEq

/-- Python truthiness of an `Optional[str]`: `None` and `""` are falsy. -/
def strTruthy : Option String → Bool
  | none => false
  | some s => s != ""

/-- `create_model` (`src/lib/models/model_factory.py` lines 9-18):
`ValueError` when an OpenAI model is requested with a falsy key
(`if not api_key`, line 12). -/
def create_model (model_type : ModelType) (api_key : Option String) :
    Except String ModelObj :=
  match model_type with
  | .gpt35 =>
      match api_key with
      | some k => if k = "" then .error "API key required for OpenAI models"
                  else .ok (.openai k "gpt-3.5-turbo")
      | none => .error "API key required for OpenAI models"
  | .gpt4 =>
      match api_key with
      | some k => if k = "" then .error "API key required for OpenAI models"
                  else .ok (.openai k "gpt-4")
      | none => .error "API key required for OpenAI models"
  | .local => .ok .localModel

/-- Python attribute lookup `obj.model_type` on a model object: neither
`OpenAIModel` nor `LocalModel` has that attribute, so the lookup raises
`AttributeError`. -/
def getattrModelType (m : ModelObj) : Except String ModelType :=
  match m with
  | .openai _ _ => .error "AttributeError: OpenAIModel object has no attribute model_type"
  | .localModel => .error "AttributeError: LocalModel object has no attribute model_type"

/-- `TextProcessor.__init__` (`src/lib/text_processor.py` lines 47-62)
when handed a *model object* in the `config` position, as
`src/lib/process_input.py` line 33 does (`TextProcessor(model)`): the
truthy argument becomes `self.config`, then
`create_model(self.config.model_type, **self.config.model_params)`
evaluates `self.config.model_type` — an `AttributeError`, caught and
re-raised as `ProcessingError` (line 62). -/
def textProcessorInitWithModel (m : ModelObj) : Except String Unit :=
  match getattrModelType m with
  | .error e => .error ("Model initialization failed: " ++ e)
  | .ok _ => .ok ()

/-- Method lookup for `processor.format_meeting_notes` /
`processor.format_general_notes` (`src/lib/process_input.py` lines 36-37):
`TextProcessor` defines `process_meeting_notes` and
`process_general_notes`, not these names, so the lookup raises
`AttributeError` (never reached in practice, since `__init__` raises
first). -/
def callFormatNotes (_st : Unit) (_note_type _text : String) :
    Except String String :=
  .error "AttributeError: TextProcessor object has no attribute format_meeting_notes or format_general_notes"

/-- `process_text` (`src/lib/process_input.py` lines 25-41).  The result
of `get_api_key()` is passed in as `api_key`; `print(...)` logging is
dropped.  Any exception in the `try` block falls back to
`f"* {text}"` (line 41). -/
def processTextCLI (api_key : Option String) (text : String)
    (note_type : String) : String :=
  let model_type := if strTruthy api_key then ModelType.gpt35 else ModelType.local
  match create_model model_type api_key with
  | .error _ => "* " ++ text
  | .ok m =>
      match textProcessorInitWithModel m with
      | .error _ => "* " ++ text
      | .ok st =>
          match callFormatNotes st note_type text with
          | .error _ => "* " ++ text
          | .ok s => s

/-!
## Specification-side definitions

Used only to compare the code against the wording of spec claims. -/

/-- Modelled from the words of claim C8: the title is the *first non-empty
line* of the backend-formatted text, de-marked and stripped.  (The code
instead takes element 0 of the newline-split, empty or not.) -/
def titleFirstNonEmptyLine (formatted : String) : String :=
  match (pySplit formatted "\n").find? (fun line => line != "") with
  | some line => stripTitleMarkers line
  | none => ""

/-!
## Helper lemmas -/

/-- Invariant of the capture session: when no input chunk contains a stop
phrase, the already-recognized segments, the queued chunks and the
still-pending chunks always concatenate to the original capture sequence,
and every queued or pending chunk is stop-phrase free. -/
lemma reach_invariant (inputs : List String)
    (hno : ∀ t ∈ inputs, stopHit t = false) (s : RecorderState)
    (hr : Reach (recInit inputs) s) :
    s.segments ++ s.queue ++ s.pending = inputs ∧
      ∀ t ∈ s.queue ++ s.pending, stopHit t = false := by
  induction hr with
  | refl =>
      refine ⟨by simp [recInit], ?_⟩
      intro t ht
      exact hno t (by simpa [recInit] using ht)
  | tail h1 h2 ih =>
      obtain ⟨hsum, hsafe⟩ := ih
      cases h2 with
      | capture t rest queue segments =>
          refine ⟨by simpa using hsum, ?_⟩
          intro u hu
          apply hsafe
          simp only [List.mem_append, List.mem_singleton, List.mem_cons] at hu ⊢
          tauto
      | recognize_ok t pending rest segments rec h =>
          refine ⟨by simpa using hsum, ?_⟩
          intro u hu
          apply hsafe
          simp only [List.mem_append, List.mem_cons] at hu ⊢
          tauto
      | recognize_stop t pending rest segments rec h =>
          have hf : stopHit t = false := hsafe t (by simp)
          rw [h] at hf
          exact absurd hf (by simp)
      | interrupt pending queue segments rec =>
          exact ⟨hsum, hsafe⟩

/-- The producer alone can move every pending chunk into the queue: the
unbounded `put` of `record_chunk` is enabled at every queue length. -/
lemma reach_capture_all (l : List String) : ∀ queue segments : List String,
    Reach ⟨l, queue, segments, true⟩ ⟨[], queue ++ l, segments, true⟩ := by
  induction l with
  | nil =>
      intro queue segments
      simpa using (Relation.ReflTransGen.refl :
        Reach ⟨[], queue, segments, true⟩ ⟨[], queue, segments, true⟩)
  | cons t rest ih =>
      intro queue segments
      have h1 : Step ⟨t :: rest, queue, segments, true⟩
          ⟨rest, queue ++ [t], segments, true⟩ :=
        Step.capture t rest queue segments
      have h2 : Reach ⟨rest, queue ++ [t], segments, true⟩
          ⟨[], (queue ++ [t]) ++ rest, segments, true⟩ :=
        ih (queue ++ [t]) segments
      have h3 : Reach ⟨t :: rest, queue, segments, true⟩
          ⟨[], (queue ++ [t]) ++ rest, segments, true⟩ :=
        Relation.ReflTransGen.head h1 h2
      simpa [List.append_assoc] using h3

/-!
## Claim theorems -/

/-- Claim C1 (confirmed): whenever the backend call inside
`process_meeting_notes` fails with any exception `e`, the function does
not raise (the embedding is total) and returns a `ProcessedText` whose
`content` is the original raw text, whose `tags` are exactly
`["meeting", "error"]`, and whose `error` field carries the failure
description. -/
theorem meeting_notes_degrade
    (model : String → String → Except String String)
    (default_tags : List String) (timestamp raw_text e : String)
    (h : model raw_text meetingSystemPrompt = Except.error e) :
    (process_meeting_notes model default_tags timestamp raw_text).content
        = raw_text ∧
    (process_meeting_notes model default_tags timestamp raw_text).tags
        = ["meeting", "error"] ∧
    (process_meeting_notes model default_tags timestamp raw_text).error
        = some ("Error processing meeting notes: " ++ e) := by
  simp [process_meeting_notes, h]

/-- Witness for C1 at a concrete always-failing backend. -/
theorem meeting_notes_degrade_witness :
    (process_meeting_notes (fun _ _ => Except.error "backend down") []
        "<2024-01-01 Mon 10:00>" "raw words").content = "raw words" ∧
    (process_meeting_notes (fun _ _ => Except.error "backend down") []
        "<2024-01-01 Mon 10:00>" "raw words").tags = ["meeting", "error"] ∧
    (process_meeting_notes (fun _ _ => Except.error "backend down") []
        "<2024-01-01 Mon 10:00>" "raw words").error
      = some ("Error processing meeting notes: " ++ "backend down") :=
  meeting_notes_degrade (fun _ _ => Except.error "backend down") []
    "<2024-01-01 Mon 10:00>" "raw words" "backend down" rfl

/-- Claim C5 (corrected): `LocalModel.process_text` applied to
`"A. B. C."` returns `"* A\n* B\n* C."` — the final sentence keeps its
trailing period, because the split separator is the two-character string
`". "` and the last `"."` is not followed by a space.  The claimed output
`"* A\n* B\n* C"` is therefore wrong. -/
theorem local_split_example_cex :
    LocalModel.process_text "A. B. C." = "* A\n* B\n* C." ∧
      "* A\n* B\n* C." ≠ "* A\n* B\n* C" := by
  constructor
  · decide
  · decide

/-- Claim C5 amended: the exact output on `"A. B. C."`, trailing period
included. -/
theorem local_split_example :
    LocalModel.process_text "A. B. C." = "* A\n* B\n* C." := by decide

/-- Claim C6 (code_bug): invoking the `Local` backend through the
declared backend contract `process(rawText, instruction)` — as
`src/lib/text_processor.py` line 86 and the abstract interface
`src/lib/models/base.py` lines 50-71 prescribe — always raises
`TypeError`, because `LocalModel.process_text` declares a single `text`
parameter.  Called with one argument it is indeed total and
deterministic. -/
theorem local_backend_contract_broken (raw_text system_prompt : String) :
    LocalModel.callProcessText [raw_text, system_prompt]
        = Except.error "TypeError: process_text() takes 2 positional arguments but 3 were given" ∧
    LocalModel.callProcessText [raw_text]
        = Except.ok (LocalModel.process_text raw_text) :=
  ⟨rfl, rfl⟩

/-- Claim C7 (confirmed): whenever the backend call inside
`process_general_notes` fails with any exception `e`, the failure is
propagated unchanged to the caller — no degraded `ProcessedText` is
returned. -/
theorem general_notes_propagate
    (model : String → String → Except String String)
    (raw_text : String) (context : Option String) (e : String)
    (h : model raw_text (generalSystemPrompt context) = Except.error e) :
    process_general_notes model raw_text context = Except.error e := by
  simp [process_general_notes, h]

/-- Witness for C7 at a concrete always-failing backend. -/
theorem general_notes_propagate_witness :
    process_general_notes (fun _ _ => Except.error "backend down")
        "raw words" none = Except.error "backend down" :=
  general_notes_propagate (fun _ _ => Except.error "backend down")
    "raw words" none "backend down" rfl

/-- Claim C10 (confirmed): for every API-key situation, input text and
note type, the command-line `process_text` of `src/lib/process_input.py`
returns `"* "` followed by the unchanged input: `TextProcessor(model)`
always raises (model objects have no `model_type` attribute), so the
`except` fallback branch runs on every call. -/
theorem process_text_cli_always_falls_back
    (api_key : Option String) (text note_type : String) :
    processTextCLI api_key text note_type = "* " ++ text := by
  cases api_key with
  | none => rfl
  | some k =>
      by_cases hk : k = ""
      · subst hk; rfl
      · have ht : strTruthy (some k) = true := by simp [strTruthy, hk]
        simp [processTextCLI, ht, create_model, hk,
          textProcessorInitWithModel, getattrModelType, callFormatNotes]

/-- Claim C2 (confirmed): for every capture sequence of successfully
recognized, stop-phrase-free chunks and every interleaving of the producer
and consumer threads, once every chunk has been captured and recognized
the transcript returned by `record` is the chunk texts joined with single
spaces in capture order. -/
theorem record_join_ordered (inputs : List String) (s : RecorderState)
    (hno : ∀ t ∈ inputs, stopHit t = false)
    (hr : Reach (recInit inputs) s)
    (hpending : s.pending = []) (hqueue : s.queue = []) :
    joinTranscript s = String.intercalate " " inputs := by
  have hsum := (reach_invariant inputs hno s hr).1
  rw [hpending, hqueue] at hsum
  simp only [List.append_nil] at hsum
  rw [joinTranscript, hsum]

/-- Witness for C2: a concrete two-chunk session, interleaved as capture,
capture, recognize, recognize, interrupt. -/
theorem record_join_ordered_witness :
    joinTranscript ⟨[], [], ["hello", "world"], false⟩ =
      String.intercalate " " ["hello", "world"] := by
  apply record_join_ordered ["hello", "world"]
    ⟨[], [], ["hello", "world"], false⟩ (by decide) ?_ rfl rfl
  exact Relation.ReflTransGen.head (Step.capture "hello" ["world"] [] [])
    (Relation.ReflTransGen.head (Step.capture "world" [] ["hello"] [])
      (Relation.ReflTransGen.head
        (Step.recognize_ok "hello" [] ["world"] [] true (by decide))
        (Relation.ReflTransGen.head
          (Step.recognize_ok "world" [] [] ["hello"] true (by decide))
          (Relation.ReflTransGen.single
            (Step.interrupt [] [] ["hello", "world"] true)))))

/-- A reachable state whose queue holds seventeen chunks: the producer can
run seventeen captures before the consumer is ever scheduled. -/
def recOverflowInit : RecorderState := recInit (List.replicate 17 "chunk")

/-- The state after those seventeen unbounded puts. -/
def recOverflowState : RecorderState :=
  ⟨[], List.replicate 17 "chunk", [], true⟩

/-- Claim C3 (corrected): the queue is *not* bounded by the configured
capacity (the spec default is 16): `audio_queue = queue.Queue()` has no
`maxsize`, so seventeen producer steps reach a queue of length 17 with no
put ever blocking. -/
theorem queue_bound_cex :
    Reach recOverflowInit recOverflowState ∧
      16 < recOverflowState.queue.length := by
  constructor
  · have h := reach_capture_all (List.replicate 17 "chunk") [] []
    simpa [recOverflowInit, recOverflowState, recInit] using h
  · decide

/-- Claim C3 amended: the audio queue is unbounded — for every `n`, a
state with queue length `n` is reachable by the producer alone, each
`put` succeeding immediately. -/
theorem queue_unbounded (n : Nat) :
    Reach (recInit (List.replicate n "chunk"))
        ⟨[], List.replicate n "chunk", [], true⟩ ∧
      (RecorderState.mk [] (List.replicate n "chunk") [] true).queue.length
        = n := by
  constructor
  · have h := reach_capture_all (List.replicate n "chunk") [] []
    simpa [recInit] using h
  · simp

/-- Claim C4 (corrected): on the chunk where a stop phrase is found the
consumer `break`s *before* the `append` (lines 54-59 of
`src/lib/record_voice.py`), so the stop chunk text is *excluded* from the
final transcript: recognizing `"Alice met Bob"` then `"stop recording"`
leaves only `["Alice met Bob"]`, not the claimed inclusion of the stop
chunk. -/
theorem stop_chunk_append_cex :
    consumeTexts ["Alice met Bob", "stop recording"] [] = ["Alice met Bob"] ∧
      consumeTexts ["Alice met Bob", "stop recording"] []
        ≠ ["Alice met Bob", "stop recording"] := by
  constructor
  · decide
  · decide

/-- Claim C4 amended: when a stop-phrase-free prefix is followed by a
chunk containing a stop phrase, the consumer appends exactly the prefix
and stops — the stop chunk text never enters the transcript. -/
theorem stop_chunk_excluded (t : String) (rest : List String)
    (ht : stopHit t = true) :
    ∀ (pre segments : List String), (∀ u ∈ pre, stopHit u = false) →
      consumeTexts (pre ++ t :: rest) segments = segments ++ pre := by
  intro pre
  induction pre with
  | nil =>
      intro segments _
      simp [consumeTexts, ht]
  | cons u us ih =>
      intro segments hpre
      have hu : stopHit u = false := hpre u (List.mem_cons_self u us)
      have hstep : consumeTexts ((u :: us) ++ t :: rest) segments
          = consumeTexts (us ++ t :: rest) (segments ++ [u]) := by
        simp [consumeTexts, hu]
      rw [hstep,
        ih (segments ++ [u]) (fun v hv => hpre v (List.mem_cons_of_mem u hv))]
      simp

/-- Witness for the amended C4 at the end-to-end scenario of the spec. -/
theorem stop_chunk_excluded_witness :
    consumeTexts (["Alice met Bob"] ++ "stop recording" :: []) []
      = [] ++ ["Alice met Bob"] :=
  stop_chunk_excluded "stop recording" [] (by decide)
    ["Alice met Bob"] [] (by decide)

/-- Claim C8 (corrected): the title of a general note is computed from the
*first* line of the backend text, not the first *non-empty* line: on
backend output `"\n* Hello"` the code returns the empty title, while the
first non-empty line de-marked is `"Hello"`. -/
theorem general_title_cex :
    (process_general_notes (fun _ _ => Except.ok "\n* Hello") "raw" none).map
        ProcessedText.title = Except.ok (some "") ∧
      titleFirstNonEmptyLine "\n* Hello" = "Hello" ∧
      some ("" : String) ≠ some "Hello" := by
  refine ⟨by rfl, by decide, by decide⟩

/-- Claim C8 amended: whenever the first line of the backend-formatted
text is non-empty, the title is that first line — then also the first
non-empty line — with leading org markers and surrounding whitespace
stripped; on an empty first line the code returns the empty title
instead of searching further. -/
theorem general_title_first_line
    (model : String → String → Except String String)
    (raw_text : String) (context : Option String) (formatted : String)
    (h : model raw_text (generalSystemPrompt context) = Except.ok formatted)
    (hfl : (pySplit formatted "\n").headD "" ≠ "") :
    (process_general_notes model raw_text context).map ProcessedText.title
      = Except.ok (some (titleFirstNonEmptyLine formatted)) := by
  have hts : titleFirstNonEmptyLine formatted
      = stripTitleMarkers ((pySplit formatted "\n").headD "") := by
    cases hsplit : pySplit formatted "\n" with
    | nil => rw [hsplit] at hfl; simp at hfl
    | cons l ls =>
        rw [hsplit] at hfl
        simp only [List.headD_cons] at hfl ⊢
        simp [titleFirstNonEmptyLine, hsplit, List.find?, hfl]
  simp [process_general_notes, h, hts, Except.map]

/-- Witness for the amended C8 at a concrete backend output. -/
theorem general_title_first_line_witness :
    (process_general_notes (fun _ _ => Except.ok "* Hello World") "raw"
        none).map ProcessedText.title
      = Except.ok (some (titleFirstNonEmptyLine "* Hello World")) :=
  general_title_first_line (fun _ _ => Except.ok "* Hello World") "raw"
    none "* Hello World" rfl (by decide)

/-- Claim C9 (corrected): general notes do *not* deduplicate tags — the
success path of `process_general_notes` passes the raw `_extract_tags`
output through, and a `:FILETAGS:` line with a repeated entry yields a
duplicated tag list. -/
theorem tags_nodup_cex :
    (process_general_notes (fun _ _ => Except.ok ":FILETAGS:a:a:") "x"
        none).map ProcessedText.tags = Except.ok ["a", "a"] ∧
      ¬ (["a", "a"] : List String).Nodup := by
  refine ⟨by rfl, by decide⟩

/-- Claim C9 amended: every `ProcessedText` returned by
`process_meeting_notes` — success path (tags passed through
`list(set(...))`) and failure path (the literal `["meeting", "error"]`) —
has duplicate-free tags; `process_general_notes` gives no such
guarantee. -/
theorem meeting_tags_nodup
    (model : String → String → Except String String)
    (default_tags : List String) (timestamp raw_text : String) :
    (process_meeting_notes model default_tags timestamp raw_text).tags.Nodup := by
  cases hm : model raw_text meetingSystemPrompt with
  | ok f =>
      simp [process_meeting_notes, hm, List.nodup_dedup]
  | error e =>
      simp [process_meeting_notes, hm]

end VoiceToOrg
